import Mathlib

/-!
Verification of the Hyperliquid staking-link signer (TypeScript sources:
`index.ts`, `scripts/sign_message_and_call_api.ts`, and the standalone
staking-finalize script).  The TypeScript control flow and data model are
embedded shallowly: JavaScript strings are `String`, bigints are `Nat`,
environment variables are `Option String`, a thrown `Error` is the
`Except.error` branch, and the `ethers`/`axios` library boundary is a
record of abstract operations (`World`).
-/

/-! ## JavaScript string primitives -/

/-- One character of `String.prototype.toLowerCase()` restricted to ASCII,
which is all the program feeds it (hex addresses and mode names). -/
def lowerChar (c : Char) : Char :=
  if 65 ≤ c.toNat ∧ c.toNat ≤ 90 then Char.ofNat (c.toNat + 32) else c

/-- `s.toLowerCase()` on ASCII strings. -/
def toLowerJS (s : String) : String := ⟨s.data.map lowerChar⟩

/-- Whitespace test for the model of `String.prototype.trim()`. -/
def isWSChar (c : Char) : Bool := c = ' ' ∨ c = '\t' ∨ c = '\n' ∨ c = '\r'

/-- `s.trim()`: strip leading and trailing whitespace. -/
def trimJS (s : String) : String :=
  ⟨((s.data.dropWhile isWSChar).reverse.dropWhile isWSChar).reverse⟩

/-- Value of a hexadecimal digit character (0 for non-digits, which the
program never feeds it: its inputs are `"0x3e6"` and `"0x1"`). -/
def hexDigitVal (c : Char) : Nat :=
  if 48 ≤ c.toNat ∧ c.toNat ≤ 57 then c.toNat - 48
  else if 97 ≤ c.toNat ∧ c.toNat ≤ 102 then c.toNat - 87
  else if 65 ≤ c.toNat ∧ c.toNat ≤ 70 then c.toNat - 55
  else 0

/-- Value of a decimal digit character. -/
def decDigitVal (c : Char) : Nat :=
  if 48 ≤ c.toNat ∧ c.toNat ≤ 57 then c.toNat - 48 else 0

def hexOfChars (l : List Char) : Nat := l.foldl (fun a c => a * 16 + hexDigitVal c) 0

def decOfChars (l : List Char) : Nat := l.foldl (fun a c => a * 10 + decDigitVal c) 0

/-- `parseInt(s)` as the program uses it: a `"0x"`-prefixed string parses as
hexadecimal (JavaScript `parseInt` auto-detects the `0x` radix prefix),
anything else as decimal.  The program only calls it on `"0x3e6"` / `"0x1"`. -/
def parseIntJS (s : String) : Nat :=
  match s.data with
  | '0' :: 'x' :: rest => hexOfChars rest
  | l => decOfChars l

/-- `BigInt(s)` for the decimal nonce strings the program passes in `NONCE`. -/
def parseBigInt (s : String) : Nat := decOfChars s.data

/-! ## The JavaScript `Number(bigint)` conversion -/

/-- Exponent `e` such that a value `x < 2 ^ 64` rounds at granularity `2 ^ e`
when converted to an IEEE-754 double (53 significant bits).  Written as
explicit range tests so it is kernel-computable. -/
def sigExp (x : Nat) : Nat :=
  if x < 2 ^ 53 then 0
  else if x < 2 ^ 54 then 1
  else if x < 2 ^ 55 then 2
  else if x < 2 ^ 56 then 3
  else if x < 2 ^ 57 then 4
  else if x < 2 ^ 58 then 5
  else if x < 2 ^ 59 then 6
  else if x < 2 ^ 60 then 7
  else if x < 2 ^ 61 then 8
  else if x < 2 ^ 62 then 9
  else if x < 2 ^ 63 then 10
  else 11

/-- `Number(x)` for a bigint `x` in the uint64 range `[0, 2 ^ 64)`: the exact
value of the nearest IEEE-754 double, rounding ties to the even mantissa.
All doubles produced from this range are integers, so the result is a `Nat`. -/
def jsNumberOfU64 (x : Nat) : Nat :=
  let e := sigExp x
  if e = 0 then x
  else
    let q := x / 2 ^ e
    let r := x % 2 ^ e
    let half := 2 ^ (e - 1)
    let q' := if half < r then q + 1 else if r < half then q else if q % 2 = 0 then q else q + 1
    q' * 2 ^ e

/-! ## Data model (`index.ts` interfaces) -/

/-- `interface LinkAction` — the value built by `signAndSubmitLink` and signed
under EIP-712.  `nonce` is a JavaScript bigint, modelled as `Nat`. -/
structure LinkAction where
  hyperliquidChain : String
  isFinalize : Bool
  nonce : Nat
  signatureChainId : String
  type : String
  user : String
deriving DecidableEq

/-- The `ethers.TypedDataDomain` record built in `signLinkAction`. -/
structure Domain where
  name : String
  version : String
  chainId : Nat
  verifyingContract : String
deriving DecidableEq

/-- The `value` record passed to `wallet.signTypedData`. -/
structure LinkValue where
  hyperliquidChain : String
  user : String
  isFinalize : Bool
  nonce : Nat
deriving DecidableEq

/-- `Record<string, Array<ethers.TypedDataField>>`: type name to ordered
(field name, field type) pairs. -/
abbrev TypesList := List (String × List (String × String))

/-- The `{ r, s, v }` signature triple returned by `signLinkAction`. -/
structure Sig where
  r : String
  s : String
  v : Nat
deriving DecidableEq

/-- The `action` sub-object of the submitted payload, after
`nonce: Number(action.nonce)` (a double, hence `jsNumberOfU64`). -/
structure PayloadAction where
  hyperliquidChain : String
  isFinalize : Bool
  nonce : Nat
  signatureChainId : String
  type : String
  user : String
deriving DecidableEq

/-- `interface HyperliquidLinkPayload` as serialized in `signAndSubmitLink`:
`expiresAfter: null`, `isFrontend: true`, `vaultAddress: null` are modelled
as their only possible values via `Option`/`Bool` fields. -/
structure Payload where
  action : PayloadAction
  expiresAfter : Option Nat
  isFrontend : Bool
  nonce : Nat
  signature : Sig
  vaultAddress : Option String
deriving DecidableEq

/-! ## The ethers / axios boundary -/

/-- Abstract operations supplied by the `ethers` and `axios` libraries.
`signTypedData`, `verifyTypedData` and `addressOf` (the address of the wallet
constructed from a private key) are opaque functions; `post` delivers a
payload to a URL and produces the remote response of type `ρ`. -/
structure World (ρ : Type) where
  signTypedData : Domain → TypesList → LinkValue → String
  splitSig : String → Sig
  verifyTypedData : Domain → TypesList → LinkValue → String → String
  addressOf : String → String
  post : String → Payload → ρ

/-! ## `signLinkAction` -/

def zeroAddress : String := "0x0000000000000000000000000000000000000000"

/-- The EIP-712 domain built in `signLinkAction`:
`{ name: 'HyperliquidSignTransaction', version: '1', chainId:
parseInt(action.signatureChainId), verifyingContract: 0x0 }`. -/
def linkDomain (signatureChainId : String) : Domain :=
  { name := "HyperliquidSignTransaction"
    version := "1"
    chainId := parseIntJS signatureChainId
    verifyingContract := zeroAddress }

/-- The `types` record built in `signLinkAction`: a single type
`HyperliquidTransaction:LinkStakingUser` with four ordered fields. -/
def linkTypes : TypesList :=
  [("HyperliquidTransaction:LinkStakingUser",
    [("hyperliquidChain", "string"),
     ("user", "address"),
     ("isFinalize", "bool"),
     ("nonce", "uint64")])]

/-- The `value` record built in `signLinkAction`: the action's fields with
`user` lowercased and `nonce` kept as a bigint. -/
def linkValueOf (action : LinkAction) : LinkValue :=
  { hyperliquidChain := action.hyperliquidChain
    user := toLowerJS action.user
    isFinalize := action.isFinalize
    nonce := action.nonce }

/-- The message of the error thrown on a local recovery mismatch. -/
def mismatchMsg (recovered expected : String) : String :=
  s!"Local EIP-712 recovery mismatch. recovered={recovered} expected={expected}"

/-- `signLinkAction(action, wallet, testnet)`: build domain/types/value, sign,
split the signature, recover locally, and throw unless the recovered address
equals the wallet address case-insensitively.  The `testnet` parameter is
declared but unused, exactly as in the source. -/
def signLinkAction {ρ : Type} (W : World ρ) (action : LinkAction) (walletKey : String)
    (_testnet : Bool) : Except String Sig :=
  let domain := linkDomain action.signatureChainId
  let value := linkValueOf action
  let signature := W.signTypedData domain linkTypes value
  let sig := W.splitSig signature
  let recovered := W.verifyTypedData domain linkTypes value signature
  let expected := W.addressOf walletKey
  if toLowerJS recovered ≠ toLowerJS expected then
    Except.error (mismatchMsg recovered expected)
  else
    Except.ok sig

/-! ## Submission (`submitLinkAction`) and the coordinator (`signAndSubmitLink`) -/

/-- Observable events of a run, in program order: a wallet construction
(`new ethers.Wallet`), an RPC `getBlockNumber` query, a signing operation,
and an HTTP POST with its axios timeout in milliseconds. -/
inductive Ev where
  | keyLoad : Ev
  | rpcGetBlockNumber : Ev
  | signOp : Ev
  | httpPost (url : String) (timeoutMs : Nat) : Ev
deriving DecidableEq

/-- The URL `submitLinkAction` posts to: one of two fixed base URLs selected
by the `testnet` flag, with `/exchange` appended. -/
def submitUrl (testnet : Bool) : String :=
  (if testnet then "https://api-ui.hyperliquid-testnet.xyz"
   else "https://api-ui.hyperliquid.xyz") ++ "/exchange"

/-- The axios timeout of both HTTP POSTs in the sources (`timeout: 30000`). -/
def axiosTimeoutMs : Nat := 30000

/-- `finalNonce = nonce || BigInt(Date.now())` in `signAndSubmitLink`:
JavaScript `||` falls through on the falsy bigint `0n` as well as on
`undefined`. -/
def finalNonceOf (nonce : Option Nat) (now : Nat) : Nat :=
  match nonce with
  | some v => if v = 0 then now else v
  | none => now

/-- The `LinkAction` literal built in `signAndSubmitLink`. -/
def builtAction (userAddress : String) (isFinalize testnet : Bool) (finalNonce : Nat) :
    LinkAction :=
  { hyperliquidChain := if testnet then "Testnet" else "Mainnet"
    isFinalize := isFinalize
    nonce := finalNonce
    signatureChainId := if testnet then "0x3e6" else "0x1"
    type := "linkStakingUser"
    user := userAddress }

/-- The `serializablePayload` literal built in `signAndSubmitLink`: both nonce
fields go through `Number(...)`, modelled by `jsNumberOfU64`. -/
def builtPayload (action : LinkAction) (finalNonce : Nat) (sig : Sig) : Payload :=
  { action :=
      { hyperliquidChain := action.hyperliquidChain
        isFinalize := action.isFinalize
        nonce := jsNumberOfU64 action.nonce
        signatureChainId := action.signatureChainId
        type := action.type
        user := action.user }
    expiresAfter := none
    isFrontend := true
    nonce := jsNumberOfU64 finalNonce
    signature := sig
    vaultAddress := none }

/-- Observables of a successful `signAndSubmitLink` run: the nonce reported to
the caller on the console (`Nonce: ...`), the action handed to the signer, the
payload and URL of the POST, and the remote response. -/
structure SubmitResult (ρ : Type) where
  reportedNonce : Nat
  signedAction : LinkAction
  payload : Payload
  url : String
  response : ρ
deriving DecidableEq

/-- `signAndSubmitLink(privateKey, userAddress, isFinalize, testnet, nonce)`
with `Date.now()` passed in as `now`.  Returns the event trace in program
order together with the thrown error or the run's observables. -/
def signAndSubmitLink' {ρ : Type} (W : World ρ) (privateKey userAddress : String)
    (isFinalize testnet : Bool) (nonce : Option Nat) (now : Nat) :
    List Ev × Except String (SubmitResult ρ) :=
  let finalNonce := finalNonceOf nonce now
  let action := builtAction userAddress isFinalize testnet finalNonce
  match signLinkAction W action privateKey testnet with
  | Except.error e => ([Ev.keyLoad, Ev.signOp], Except.error e)
  | Except.ok sig =>
      let payload := builtPayload action finalNonce sig
      ([Ev.keyLoad, Ev.signOp, Ev.httpPost (submitUrl testnet) axiosTimeoutMs],
       Except.ok
         { reportedNonce := finalNonce
           signedAction := action
           payload := payload
           url := submitUrl testnet
           response := W.post (submitUrl testnet) payload })

/-! ## Environment and `main` (`index.ts`) -/

/-- The environment variables `index.ts` and the staking-finalize script read.
`none` is an unset variable. -/
structure Env where
  IS_FINALIZE : Option String
  HYPERLIQUID_TESTNET : Option String
  NONCE : Option String
  STAKING_PRIVATE_KEY : Option String
  STAKING_USER_ADDRESS : Option String
  TRADING_PRIVATE_KEY : Option String
  TRADING_USER_ADDRESS : Option String

/-- `getenvStrict(name)`: throw if the variable is unset or trims to the empty
string (an unset variable and a blank one are both rejected — `!v` also
catches the empty string, which `trim` rejects anyway). -/
def getenvStrict (v : Option String) (name : String) : Except String String :=
  match v with
  | none => Except.error s!"Missing required env var: {name}"
  | some s => if trimJS s = "" then Except.error s!"Missing required env var: {name}" else Except.ok s

/-- `const nonce = nonceArg ? BigInt(nonceArg) : undefined` — the empty string
is falsy, any other string parses. -/
def nonceOfEnv (nonceArg : Option String) : Option Nat :=
  match nonceArg with
  | some s => if s = "" then none else some (parseBigInt s)
  | none => none

/-- `main()` of `index.ts`: read the role and network flags, resolve the role's
key and counterparty address with `getenvStrict`, lowercase the address, and
run `signAndSubmitLink`. -/
def mainLink {ρ : Type} (W : World ρ) (env : Env) (now : Nat) :
    List Ev × Except String (SubmitResult ρ) :=
  let testnet := env.HYPERLIQUID_TESTNET != some "false"
  let nonce := nonceOfEnv env.NONCE
  if env.IS_FINALIZE = some "true" then
    match getenvStrict env.STAKING_PRIVATE_KEY "STAKING_PRIVATE_KEY" with
    | Except.error e => ([], Except.error e)
    | Except.ok stakingKey =>
      match getenvStrict env.STAKING_USER_ADDRESS "STAKING_USER_ADDRESS" with
      | Except.error e => ([], Except.error e)
      | Except.ok addr =>
          signAndSubmitLink' W stakingKey (toLowerJS addr) true testnet nonce now
  else
    match getenvStrict env.TRADING_PRIVATE_KEY "TRADING_PRIVATE_KEY" with
    | Except.error e => ([], Except.error e)
    | Except.ok tradingKey =>
      match getenvStrict env.TRADING_USER_ADDRESS "TRADING_USER_ADDRESS" with
      | Except.error e => ([], Except.error e)
      | Except.ok addr =>
          signAndSubmitLink' W tradingKey (toLowerJS addr) false testnet nonce now

/-- `main()` of the standalone staking-finalize script: same flow inlined with
`isFinalize` hard-wired to `true`; here the nonce fallback tests the NONCE
string for truthiness (`nonceArg ? BigInt(nonceArg) : BigInt(Date.now())`),
so the string "0" yields the nonce 0. -/
def mainStaking {ρ : Type} (W : World ρ) (env : Env) (now : Nat) :
    List Ev × Except String (SubmitResult ρ) :=
  match getenvStrict env.STAKING_PRIVATE_KEY "STAKING_PRIVATE_KEY" with
  | Except.error e => ([], Except.error e)
  | Except.ok stakingKey =>
    match getenvStrict env.STAKING_USER_ADDRESS "STAKING_USER_ADDRESS" with
    | Except.error e => ([], Except.error e)
    | Except.ok addr =>
        let testnet := env.HYPERLIQUID_TESTNET != some "false"
        let finalNonce : Nat :=
          match env.NONCE with
          | some s => if s = "" then now else parseBigInt s
          | none => now
        let tradingAddress := toLowerJS addr
        let action := builtAction tradingAddress true testnet finalNonce
        match signLinkAction W action stakingKey testnet with
        | Except.error e => ([Ev.keyLoad, Ev.signOp], Except.error e)
        | Except.ok sig =>
            let payload := builtPayload action finalNonce sig
            ([Ev.keyLoad, Ev.signOp, Ev.httpPost (submitUrl testnet) axiosTimeoutMs],
             Except.ok
               { reportedNonce := finalNonce
                 signedAction := action
                 payload := payload
                 url := submitUrl testnet
                 response := W.post (submitUrl testnet) payload })

/-! ## `scripts/sign_message_and_call_api.ts` -/

/-- Environment variables of the generic sign-and-call-API script. -/
structure ApiEnv where
  ETH_RPC_URL : Option String
  PRIVATE_KEY : Option String
  TARGET_API_URL : Option String
  SIGN_MODE : Option String
  MESSAGE : Option String
  TYPED_DATA_JSON : Option String
  API_PAYLOAD_JSON : Option String

/-- `(process.env.SIGN_MODE || 'personal').toLowerCase()`. -/
def signModeOf (v : Option String) : String :=
  toLowerJS (match v with
    | some s => if s = "" then "personal" else s
    | none => "personal")

/-- `main()` of `sign_message_and_call_api.ts` as an event trace: the three
startup variables are checked first; then the provider issues an RPC
`getBlockNumber` query and the wallet is constructed from the key; only then,
in typed mode, is `TYPED_DATA_JSON` checked; finally the message is signed and
the API called with a 30000 ms axios timeout. -/
def mainApi (env : ApiEnv) : List Ev × Except String Unit :=
  match getenvStrict env.ETH_RPC_URL "ETH_RPC_URL" with
  | Except.error e => ([], Except.error e)
  | Except.ok _ =>
    match getenvStrict env.PRIVATE_KEY "PRIVATE_KEY" with
    | Except.error e => ([], Except.error e)
    | Except.ok _ =>
      match getenvStrict env.TARGET_API_URL "TARGET_API_URL" with
      | Except.error e => ([], Except.error e)
      | Except.ok apiUrl =>
          let pre := [Ev.rpcGetBlockNumber, Ev.keyLoad]
          let mode := signModeOf env.SIGN_MODE
          if mode = "personal" then
            (pre ++ [Ev.signOp, Ev.httpPost apiUrl axiosTimeoutMs], Except.ok ())
          else if mode = "typed" then
            match getenvStrict env.TYPED_DATA_JSON "TYPED_DATA_JSON" with
            | Except.error e => (pre, Except.error e)
            | Except.ok _ =>
                (pre ++ [Ev.signOp, Ev.httpPost apiUrl axiosTimeoutMs], Except.ok ())
          else
            (pre, Except.error "SIGN_MODE must be 'personal' or 'typed'")

/-! ## ECDSA sign / recover (Signer and Local Verifier components) -/

/-- Modelled from the spec: the Signer (`signDigest`) and Local Verifier
(`recoverAddress`) of sections 4.3/4.4 are implemented by the `ethers`
dependency and are absent from the repository sources.  Everything ECDSA does
happens inside the cyclic subgroup generated by the base point `G` of order
`n`, so a point `P = e • G` is represented by its discrete logarithm
`e : ZMod n` (`G` itself is `1`, point addition is `+`, scalar multiplication
is `*`).  `xcoord` is the x-coordinate-mod-`n` of a point and `vbit` its
recovery bit; both are curve-geometric data passed in as functions.
`ecSign d z k` signs digest `z` with key `d` and the (RFC 6979 deterministic)
per-signature nonce `k`, failing when `r` or `s` is zero. -/
def ecSign {n : ℕ} (xcoord : ZMod n → ZMod n) (vbit : ZMod n → Bool)
    (d z k : ZMod n) : Option (ZMod n × ZMod n × Bool) :=
  let R : ZMod n := k * 1
  let r := xcoord R
  if r = 0 then none
  else
    let s := k⁻¹ * (z + r * d)
    if s = 0 then none else some (r, s, vbit R)

/-- Modelled from the spec: ECDSA public-key recovery (`recoverAddress` of
section 4.4).  `recoverPoint r v` reconstructs the signature's ephemeral point
`R` from its x-coordinate `r` and recovery bit `v` (the curve-geometric step),
then the signer's public key is `r⁻¹ • (s • R - z • G)` and `addr` derives an
address from a public-key point (last 20 bytes of its keccak in the real
code, abstract here). -/
def ecRecover {n : ℕ} (recoverPoint : ZMod n → Bool → Option (ZMod n))
    (addr : ZMod n → Nat) (z r s : ZMod n) (v : Bool) : Option Nat :=
  match recoverPoint r v with
  | none => none
  | some R => some (addr (-(z * r⁻¹) + s * r⁻¹ * R))

/-! ## Helper lemmas -/

theorem sigExp_eq_zero_of_lt {x : Nat} (h : x < 2 ^ 53) : sigExp x = 0 := by
  unfold sigExp
  rw [if_pos h]

theorem jsNumberOfU64_eq_of_lt {x : Nat} (h : x < 2 ^ 53) : jsNumberOfU64 x = x := by
  simp [jsNumberOfU64, sigExp_eq_zero_of_lt h]

/-- Recovered address of the local verification step in `signLinkAction`:
`ethers.verifyTypedData(domain, types, value, signature)`. -/
def recoveredOf {ρ : Type} (W : World ρ) (action : LinkAction) : String :=
  W.verifyTypedData (linkDomain action.signatureChainId) linkTypes (linkValueOf action)
    (W.signTypedData (linkDomain action.signatureChainId) linkTypes (linkValueOf action))

theorem getenvStrict_ok {v : Option String} {name s : String}
    (h : getenvStrict v name = Except.ok s) : v = some s := by
  cases v with
  | none => simp [getenvStrict] at h
  | some s0 =>
    simp only [getenvStrict] at h
    by_cases h0 : trimJS s0 = ""
    · rw [if_pos h0] at h; simp at h
    · rw [if_neg h0] at h
      obtain rfl := Except.ok.inj h
      rfl

theorem signAndSubmitLink'_ok {ρ : Type} {W : World ρ} {key u : String} {f t : Bool}
    {nonce : Option Nat} {now : Nat} {tr : List Ev} {r : SubmitResult ρ}
    (h : signAndSubmitLink' W key u f t nonce now = (tr, Except.ok r)) :
    ∃ sig,
      signLinkAction W (builtAction u f t (finalNonceOf nonce now)) key t = Except.ok sig ∧
      tr = [Ev.keyLoad, Ev.signOp, Ev.httpPost (submitUrl t) axiosTimeoutMs] ∧
      r.reportedNonce = finalNonceOf nonce now ∧
      r.signedAction = builtAction u f t (finalNonceOf nonce now) ∧
      r.payload =
        builtPayload (builtAction u f t (finalNonceOf nonce now)) (finalNonceOf nonce now) sig ∧
      r.url = submitUrl t ∧
      r.response = W.post (submitUrl t) r.payload := by
  simp only [signAndSubmitLink'] at h
  split at h
  · simp at h
  · rename_i sig heq
    rw [Prod.mk.injEq] at h
    obtain ⟨htr, hr⟩ := h
    obtain rfl := Except.ok.inj hr
    exact ⟨sig, heq, htr.symm, rfl, rfl, rfl, rfl, rfl⟩

theorem mainLink_ok {ρ : Type} {W : World ρ} {env : Env} {now : Nat} {tr : List Ev}
    {r : SubmitResult ρ} (h : mainLink W env now = (tr, Except.ok r)) :
    ∃ key addr,
      (env.IS_FINALIZE = some "true" ∧
        getenvStrict env.STAKING_PRIVATE_KEY "STAKING_PRIVATE_KEY" = Except.ok key ∧
        getenvStrict env.STAKING_USER_ADDRESS "STAKING_USER_ADDRESS" = Except.ok addr ∧
        signAndSubmitLink' W key (toLowerJS addr) true (env.HYPERLIQUID_TESTNET != some "false")
          (nonceOfEnv env.NONCE) now = (tr, Except.ok r)) ∨
      (env.IS_FINALIZE ≠ some "true" ∧
        getenvStrict env.TRADING_PRIVATE_KEY "TRADING_PRIVATE_KEY" = Except.ok key ∧
        getenvStrict env.TRADING_USER_ADDRESS "TRADING_USER_ADDRESS" = Except.ok addr ∧
        signAndSubmitLink' W key (toLowerJS addr) false (env.HYPERLIQUID_TESTNET != some "false")
          (nonceOfEnv env.NONCE) now = (tr, Except.ok r)) := by
  simp only [mainLink] at h
  by_cases hf : env.IS_FINALIZE = some "true"
  · rw [if_pos hf] at h
    split at h
    · simp at h
    · rename_i key hkey
      split at h
      · simp at h
      · rename_i addr haddr
        exact ⟨key, addr, Or.inl ⟨hf, hkey, haddr, h⟩⟩
  · rw [if_neg hf] at h
    split at h
    · simp at h
    · rename_i key hkey
      split at h
      · simp at h
      · rename_i addr haddr
        exact ⟨key, addr, Or.inr ⟨hf, hkey, haddr, h⟩⟩

/-! ## Concrete instantiations used by witnesses and counterexamples -/

/-- A signature value for concrete runs. -/
def okSig : Sig := { r := "0xr", s := "0xs", v := 27 }

/-- A concrete library instantiation whose local recovery always matches the
wallet address (`verifyTypedData` returns the address `addressOf` reports, up
to case), and whose `post` echoes the URL it was given. -/
def okWorld : World String :=
  { signTypedData := fun _ _ _ => "0xsigned"
    splitSig := fun _ => okSig
    verifyTypedData := fun _ _ _ _ => "0xAbCd"
    addressOf := fun _ => "0xabcd"
    post := fun u _ => u }

/-- A concrete library instantiation whose local recovery mismatches the
wallet address. -/
def badWorld : World String :=
  { signTypedData := fun _ _ _ => "0xsigned"
    splitSig := fun _ => okSig
    verifyTypedData := fun _ _ _ _ => "0xB"
    addressOf := fun _ => "0xA"
    post := fun u _ => u }

/-! ## C10 -/

/-- C10: for every link-signing invocation, regardless of role, the EIP-712
domain is the fixed record `{name: "HyperliquidSignTransaction", version: "1",
verifyingContract: the zero address, chainId: 998 when testnet, 1 when
mainnet}`, and the type schema contains exactly the single type
`HyperliquidTransaction:LinkStakingUser` with fields (hyperliquidChain:
string, user: address, isFinalize: bool, nonce: uint64) in that order. -/
theorem link_domain_and_types_fixed (u : String) (f t : Bool) (n : Nat) :
    linkDomain (builtAction u f t n).signatureChainId =
      { name := "HyperliquidSignTransaction"
        version := "1"
        chainId := if t then 998 else 1
        verifyingContract := "0x0000000000000000000000000000000000000000" } ∧
    linkTypes =
      [("HyperliquidTransaction:LinkStakingUser",
        [("hyperliquidChain", "string"), ("user", "address"),
         ("isFinalize", "bool"), ("nonce", "uint64")])] := by
  refine ⟨?_, rfl⟩
  cases t <;> rfl

/-! ## C5 -/

/-- C5: the nonce signed inside the EIP-712 value is the bigint itself, while
both nonce fields of the submitted payload go through `Number(...)`; below
`2 ^ 53` the submitted nonce equals the signed nonce exactly, and at the valid
uint64 nonce `2 ^ 53 + 1` the submitted payload's nonce differs from the nonce
that was signed. -/
theorem nonce_number_conversion :
    (∀ (ρ : Type) (W : World ρ) (key u : String) (f t : Bool) (nonce : Option Nat)
      (now : Nat) (tr : List Ev) (r : SubmitResult ρ),
        signAndSubmitLink' W key u f t nonce now = (tr, Except.ok r) →
        r.signedAction.nonce < 2 ^ 53 →
        r.payload.nonce = r.signedAction.nonce ∧
        r.payload.action.nonce = r.signedAction.nonce) ∧
    (∀ (ρ : Type) (W : World ρ) (key u : String) (f t : Bool) (now : Nat)
      (tr : List Ev) (r : SubmitResult ρ),
        signAndSubmitLink' W key u f t (some (2 ^ 53 + 1)) now = (tr, Except.ok r) →
        r.signedAction.nonce = 2 ^ 53 + 1 ∧
        r.payload.nonce ≠ r.signedAction.nonce) := by
  constructor
  · intro ρ W key u f t nonce now tr r h hlt
    obtain ⟨sig, _, _, _, hact, hpay, _, _⟩ := signAndSubmitLink'_ok h
    rw [hact] at hlt
    simp only [builtAction] at hlt
    rw [hpay, hact]
    simp only [builtPayload, builtAction]
    exact ⟨jsNumberOfU64_eq_of_lt hlt, jsNumberOfU64_eq_of_lt hlt⟩
  · intro ρ W key u f t now tr r h
    obtain ⟨sig, _, _, _, hact, hpay, _, _⟩ := signAndSubmitLink'_ok h
    have hfn : finalNonceOf (some (2 ^ 53 + 1)) now = 2 ^ 53 + 1 := by
      simp [finalNonceOf]
    rw [hfn] at hact hpay
    constructor
    · rw [hact]
      rfl
    · rw [hpay, hact]
      simp only [builtPayload, builtAction]
      decide

/-- Result of the concrete testnet finalize run of `signAndSubmitLink'` under
`okWorld` with key `"0xkey"`, user `"0xuser"`, supplied nonce 42, clock 5. -/
def res42 : SubmitResult String :=
  { reportedNonce := 42
    signedAction := builtAction "0xuser" true true 42
    payload := builtPayload (builtAction "0xuser" true true 42) 42 okSig
    url := submitUrl true
    response := submitUrl true }

/-- Witness for C5: the concrete run with supplied nonce 42 submits exactly
the nonce it signed. -/
theorem nonce_number_conversion_witness :
    res42.payload.nonce = res42.signedAction.nonce :=
  (nonce_number_conversion.1 String okWorld "0xkey" "0xuser" true true (some 42) 5
    [Ev.keyLoad, Ev.signOp, Ev.httpPost (submitUrl true) axiosTimeoutMs] res42
    rfl (by decide)).1

/-! ## C6 -/

/-- C6: signing is deterministic — the signature (and hence the digest it
splits from) is a function of the (domain, types, value) triple and the key
alone: the unused `testnet` parameter of `signLinkAction` does not influence
it, and when a nonce is supplied the whole run is independent of the wall
clock; no randomness source appears anywhere in the computation. -/
theorem signing_deterministic :
    (∀ (ρ : Type) (W : World ρ) (action : LinkAction) (key : String) (t₁ t₂ : Bool),
      signLinkAction W action key t₁ = signLinkAction W action key t₂) ∧
    (∀ (ρ : Type) (W : World ρ) (key u : String) (f t : Bool) (v now₁ now₂ : Nat),
      v ≠ 0 →
      signAndSubmitLink' W key u f t (some v) now₁ =
        signAndSubmitLink' W key u f t (some v) now₂) := by
  constructor
  · intro ρ W action key t₁ t₂
    rfl
  · intro ρ W key u f t v now₁ now₂ hv
    simp [signAndSubmitLink', finalNonceOf, hv]

/-- Witness for C6: two concrete runs with the same supplied nonce but
different clocks coincide. -/
theorem signing_deterministic_witness :
    signAndSubmitLink' okWorld "0xkey" "0xuser" false true (some 7) 1 =
      signAndSubmitLink' okWorld "0xkey" "0xuser" false true (some 7) 2 :=
  signing_deterministic.2 String okWorld "0xkey" "0xuser" false true 7 1 2 (by decide)

/-! ## C3 -/

/-- C3: after every link-signing operation and before any network submission,
the recovered address is compared case-insensitively with the signer wallet's
address: on a mismatch the run fails with the recovery-mismatch error and its
trace contains no HTTP POST, and the signature triple is returned (and placed
in the payload) only when the lowercased addresses agree, in which case it is
exactly the split of the produced signature. -/
theorem local_recovery_guard (ρ : Type) (W : World ρ) (key u : String) (f t : Bool)
    (nonce : Option Nat) (now : Nat) :
    (toLowerJS (recoveredOf W (builtAction u f t (finalNonceOf nonce now))) ≠
        toLowerJS (W.addressOf key) →
      signAndSubmitLink' W key u f t nonce now =
        ([Ev.keyLoad, Ev.signOp],
         Except.error
           (mismatchMsg (recoveredOf W (builtAction u f t (finalNonceOf nonce now)))
             (W.addressOf key)))) ∧
    (∀ tr r, signAndSubmitLink' W key u f t nonce now = (tr, Except.ok r) →
      toLowerJS (recoveredOf W (builtAction u f t (finalNonceOf nonce now))) =
        toLowerJS (W.addressOf key) ∧
      r.payload.signature =
        W.splitSig (W.signTypedData
          (linkDomain (builtAction u f t (finalNonceOf nonce now)).signatureChainId)
          linkTypes (linkValueOf (builtAction u f t (finalNonceOf nonce now))))) := by
  constructor
  · intro hne
    have hsig : signLinkAction W (builtAction u f t (finalNonceOf nonce now)) key t =
        Except.error
          (mismatchMsg (recoveredOf W (builtAction u f t (finalNonceOf nonce now)))
            (W.addressOf key)) := by
      simp only [recoveredOf] at hne ⊢
      simp only [signLinkAction]
      rw [if_pos hne]
    simp only [signAndSubmitLink', hsig]
  · intro tr r h
    obtain ⟨sig, hsig, _, _, _, hpay, _, _⟩ := signAndSubmitLink'_ok h
    simp only [signLinkAction] at hsig
    by_cases hc : toLowerJS (recoveredOf W (builtAction u f t (finalNonceOf nonce now))) =
        toLowerJS (W.addressOf key)
    · refine ⟨hc, ?_⟩
      simp only [recoveredOf] at hc
      rw [if_neg (not_not_intro hc)] at hsig
      rw [hpay]
      exact (Except.ok.inj hsig).symm
    · exfalso
      simp only [recoveredOf] at hc
      rw [if_pos hc] at hsig
      simp at hsig

/-- Witness for C3: under `badWorld` the recovered address `"0xB"` differs
from the wallet address `"0xA"` even after lowercasing, so the concrete run
aborts with the mismatch error and posts nothing. -/
theorem local_recovery_guard_witness :
    signAndSubmitLink' badWorld "0xkey" "0xuser" true true none 5 =
      ([Ev.keyLoad, Ev.signOp], Except.error (mismatchMsg "0xB" "0xA")) :=
  (local_recovery_guard String badWorld "0xkey" "0xuser" true true none 5).1 (by decide)

/-! ## C7 -/

/-- C7: an Initiator invocation (`IS_FINALIZE` not `"true"`) with no nonce
override builds the LinkAction with `isFinalize = false`, nonce equal to the
current wall-clock milliseconds (`Date.now()`, the `now` parameter), `user`
equal to the lowercased finalizer address from `TRADING_USER_ADDRESS`, and
reports the chosen nonce to its caller. -/
theorem initiator_fresh_nonce (ρ : Type) (W : World ρ) (env : Env) (now : Nat)
    (tr : List Ev) (r : SubmitResult ρ)
    (hrole : env.IS_FINALIZE ≠ some "true")
    (hnonce : env.NONCE = none)
    (h : mainLink W env now = (tr, Except.ok r)) :
    r.signedAction.isFinalize = false ∧
    r.signedAction.nonce = now ∧
    r.reportedNonce = now ∧
    (∀ s, env.TRADING_USER_ADDRESS = some s → r.signedAction.user = toLowerJS s) := by
  obtain ⟨key, addr, hcase⟩ := mainLink_ok h
  rcases hcase with ⟨hf, _⟩ | ⟨_, _, haddr, hrun⟩
  · exact absurd hf hrole
  · obtain ⟨sig, _, _, hrep, hact, _, _, _⟩ := signAndSubmitLink'_ok hrun
    have hfn : finalNonceOf (nonceOfEnv env.NONCE) now = now := by
      rw [hnonce]
      rfl
    refine ⟨?_, ?_, ?_, ?_⟩
    · rw [hact]
      rfl
    · rw [hact]
      exact hfn
    · exact hrep.trans hfn
    · intro s hs
      have hv := getenvStrict_ok haddr
      rw [hs] at hv
      obtain rfl := Option.some.inj hv
      rw [hact]
      rfl

/-- Concrete initiator environment: no `NONCE`, trading credentials set. -/
def initEnv : Env :=
  { IS_FINALIZE := none
    HYPERLIQUID_TESTNET := none
    NONCE := none
    STAKING_PRIVATE_KEY := none
    STAKING_USER_ADDRESS := none
    TRADING_PRIVATE_KEY := some "0xkey"
    TRADING_USER_ADDRESS := some "0xUser" }

/-- Result of the concrete initiator run `mainLink okWorld initEnv 1234`. -/
def initRes : SubmitResult String :=
  { reportedNonce := 1234
    signedAction := builtAction (toLowerJS "0xUser") false true 1234
    payload := builtPayload (builtAction (toLowerJS "0xUser") false true 1234) 1234 okSig
    url := submitUrl true
    response := submitUrl true }

/-- Witness for C7: the concrete initiator run at clock 1234 signs
`isFinalize = false`, nonce 1234, lowercased user, and reports 1234. -/
theorem initiator_fresh_nonce_witness :
    initRes.signedAction.isFinalize = false ∧ initRes.signedAction.nonce = 1234 ∧
      initRes.reportedNonce = 1234 ∧ initRes.signedAction.user = toLowerJS "0xUser" := by
  have happ := initiator_fresh_nonce String okWorld initEnv 1234
    [Ev.keyLoad, Ev.signOp, Ev.httpPost (submitUrl true) axiosTimeoutMs] initRes
    (by decide) rfl rfl
  exact ⟨happ.1, happ.2.1, happ.2.2.1, happ.2.2.2 "0xUser" rfl⟩

/-! ## C1 -/

/-- Concrete finalizer environment with no `NONCE` supplied. -/
def finEnv : Env :=
  { IS_FINALIZE := some "true"
    HYPERLIQUID_TESTNET := none
    NONCE := none
    STAKING_PRIVATE_KEY := some "0xkey"
    STAKING_USER_ADDRESS := some "0xUser"
    TRADING_PRIVATE_KEY := none
    TRADING_USER_ADDRESS := none }

/-- Result of the concrete finalizer run `mainLink okWorld finEnv (the clock
1700000000000)`. -/
def finRes : SubmitResult String :=
  { reportedNonce := 1700000000000
    signedAction := builtAction (toLowerJS "0xUser") true true 1700000000000
    payload :=
      builtPayload (builtAction (toLowerJS "0xUser") true true 1700000000000) 1700000000000 okSig
    url := submitUrl true
    response := submitUrl true }

/-- Counterexample for C1: a Finalizer invocation (`IS_FINALIZE = "true"`)
with no externally supplied nonce does not fail — the run completes, its trace
contains the HTTP POST, and the LinkAction it signed and submitted carries the
self-generated nonce `Date.now()` (here 1700000000000). -/
theorem finalizer_no_nonce_cex :
    finEnv.NONCE = none ∧
    finEnv.IS_FINALIZE = some "true" ∧
    mainLink okWorld finEnv 1700000000000 =
      ([Ev.keyLoad, Ev.signOp, Ev.httpPost (submitUrl true) axiosTimeoutMs],
       Except.ok finRes) ∧
    finRes.signedAction.nonce = 1700000000000 ∧
    finRes.payload.nonce = 1700000000000 := by
  refine ⟨rfl, rfl, rfl, rfl, ?_⟩
  decide

/-- C1 (amended): a Finalizer invocation with no externally supplied nonce
does not fail on that account — both the coordinator (`index.ts`) and the
standalone staking script fall back to `BigInt(Date.now())`, building, signing
and submitting the LinkAction with that self-generated nonce. -/
theorem finalizer_fallback_nonce :
    (∀ (ρ : Type) (W : World ρ) (env : Env) (now : Nat) (tr : List Ev) (r : SubmitResult ρ),
      env.IS_FINALIZE = some "true" → env.NONCE = none →
      mainLink W env now = (tr, Except.ok r) →
      r.signedAction.isFinalize = true ∧ r.signedAction.nonce = now ∧
        r.reportedNonce = now ∧ r.payload.nonce = jsNumberOfU64 now ∧
        tr = [Ev.keyLoad, Ev.signOp,
          Ev.httpPost (submitUrl (env.HYPERLIQUID_TESTNET != some "false")) axiosTimeoutMs]) ∧
    (∀ (ρ : Type) (W : World ρ) (env : Env) (now : Nat) (tr : List Ev) (r : SubmitResult ρ),
      env.NONCE = none →
      mainStaking W env now = (tr, Except.ok r) →
      r.signedAction.isFinalize = true ∧ r.signedAction.nonce = now ∧ r.reportedNonce = now) := by
  constructor
  · intro ρ W env now tr r hrole hnonce h
    obtain ⟨key, addr, hcase⟩ := mainLink_ok h
    rcases hcase with ⟨_, _, haddr, hrun⟩ | ⟨hf, _⟩
    · obtain ⟨sig, _, htr, hrep, hact, hpay, _, _⟩ := signAndSubmitLink'_ok hrun
      have hfn : finalNonceOf (nonceOfEnv env.NONCE) now = now := by
        rw [hnonce]
        rfl
      refine ⟨?_, ?_, ?_, ?_, htr⟩
      · rw [hact]
        rfl
      · rw [hact]
        exact hfn
      · exact hrep.trans hfn
      · rw [hpay]
        simp only [builtPayload]
        rw [hfn]
    · exact absurd hrole hf
  · intro ρ W env now tr r hnonce h
    simp only [mainStaking, hnonce] at h
    split at h
    · simp at h
    · split at h
      · simp at h
      · split at h
        · simp at h
        · rw [Prod.mk.injEq] at h
          obtain ⟨htr, hr⟩ := h
          obtain rfl := Except.ok.inj hr
          exact ⟨rfl, rfl, rfl⟩

/-- Witness for C1 (amended): the concrete no-nonce finalizer run signs and
reports exactly the clock value. -/
theorem finalizer_fallback_nonce_witness :
    finRes.signedAction.isFinalize = true ∧ finRes.signedAction.nonce = 1700000000000 := by
  have happ := finalizer_fallback_nonce.1 String okWorld finEnv 1700000000000
    [Ev.keyLoad, Ev.signOp, Ev.httpPost (submitUrl true) axiosTimeoutMs] finRes
    rfl rfl rfl
  exact ⟨happ.1, happ.2.1⟩

/-! ## C4 -/

/-- C4: every submission of a successful `main` run posts a payload of exactly
the serialized shape — `expiresAfter: null`, `isFrontend: true`,
`vaultAddress: null`, both nonce fields the same decimal number
(`Number(finalNonce)`), the action's constant fields as built, `user` the
lowercased configured address — to one of exactly two fixed URLs selected by
the testnet flag, and the remote response is passed through unmodified. -/
theorem submission_payload_shape (ρ : Type) (W : World ρ) (env : Env) (now : Nat)
    (tr : List Ev) (r : SubmitResult ρ)
    (h : mainLink W env now = (tr, Except.ok r)) :
    r.url = (if (env.HYPERLIQUID_TESTNET != some "false") = true then
        "https://api-ui.hyperliquid-testnet.xyz/exchange"
      else "https://api-ui.hyperliquid.xyz/exchange") ∧
    r.payload.expiresAfter = none ∧
    r.payload.isFrontend = true ∧
    r.payload.vaultAddress = none ∧
    r.payload.nonce = jsNumberOfU64 r.reportedNonce ∧
    r.payload.action.nonce = r.payload.nonce ∧
    r.payload.action.hyperliquidChain =
      (if (env.HYPERLIQUID_TESTNET != some "false") = true then "Testnet" else "Mainnet") ∧
    r.payload.action.signatureChainId =
      (if (env.HYPERLIQUID_TESTNET != some "false") = true then "0x3e6" else "0x1") ∧
    r.payload.action.type = "linkStakingUser" ∧
    (∀ s, env.IS_FINALIZE = some "true" → env.STAKING_USER_ADDRESS = some s →
      r.payload.action.user = toLowerJS s) ∧
    (∀ s, env.IS_FINALIZE ≠ some "true" → env.TRADING_USER_ADDRESS = some s →
      r.payload.action.user = toLowerJS s) ∧
    r.response = W.post r.url r.payload := by
  obtain ⟨key, addr, hcase⟩ := mainLink_ok h
  rcases hcase with ⟨hf, _, haddr, hrun⟩ | ⟨hf, _, haddr, hrun⟩ <;>
    obtain ⟨sig, _, _, hrep, hact, hpay, hurl, hresp⟩ := signAndSubmitLink'_ok hrun
  · refine ⟨?_, ?_, ?_, ?_, ?_, ?_, ?_, ?_, ?_, ?_, ?_, ?_⟩
    · rw [hurl]
      cases hb : (env.HYPERLIQUID_TESTNET != some "false") <;> simp [hb, submitUrl]
    · rw [hpay]; rfl
    · rw [hpay]; rfl
    · rw [hpay]; rfl
    · rw [hpay, hrep]; rfl
    · rw [hpay]; rfl
    · rw [hpay]
      cases hb : (env.HYPERLIQUID_TESTNET != some "false") <;>
        simp [hb, builtPayload, builtAction]
    · rw [hpay]
      cases hb : (env.HYPERLIQUID_TESTNET != some "false") <;>
        simp [hb, builtPayload, builtAction]
    · rw [hpay]; rfl
    · intro s _ hs
      have hv := getenvStrict_ok haddr
      rw [hs] at hv
      obtain rfl := Option.some.inj hv
      rw [hpay]
      rfl
    · intro s hns _
      exact absurd hf hns
    · rw [hurl]
      exact hresp
  · refine ⟨?_, ?_, ?_, ?_, ?_, ?_, ?_, ?_, ?_, ?_, ?_, ?_⟩
    · rw [hurl]
      cases hb : (env.HYPERLIQUID_TESTNET != some "false") <;> simp [hb, submitUrl]
    · rw [hpay]; rfl
    · rw [hpay]; rfl
    · rw [hpay]; rfl
    · rw [hpay, hrep]; rfl
    · rw [hpay]; rfl
    · rw [hpay]
      cases hb : (env.HYPERLIQUID_TESTNET != some "false") <;>
        simp [hb, builtPayload, builtAction]
    · rw [hpay]
      cases hb : (env.HYPERLIQUID_TESTNET != some "false") <;>
        simp [hb, builtPayload, builtAction]
    · rw [hpay]; rfl
    · intro s hns _
      exact absurd hns hf
    · intro s _ hs
      have hv := getenvStrict_ok haddr
      rw [hs] at hv
      obtain rfl := Option.some.inj hv
      rw [hpay]
      rfl
    · rw [hurl]
      exact hresp

/-- Witness for C4: the concrete initiator run posts to the fixed testnet URL
with the null/boolean constants in place and the response passed through. -/
theorem submission_payload_shape_witness :
    initRes.url = "https://api-ui.hyperliquid-testnet.xyz/exchange" ∧
    initRes.payload.expiresAfter = none ∧
    initRes.payload.isFrontend = true ∧
    initRes.payload.vaultAddress = none ∧
    initRes.response = okWorld.post initRes.url initRes.payload := by
  have happ := submission_payload_shape String okWorld initEnv 1234
    [Ev.keyLoad, Ev.signOp, Ev.httpPost (submitUrl true) axiosTimeoutMs] initRes rfl
  obtain ⟨h1, h2, h3, h4, _, _, _, _, _, _, _, h12⟩ := happ
  exact ⟨h1, h2, h3, h4, h12⟩

/-! ## C8 -/

/-- Environment for the C8 counterexample: the three startup variables are
present, `SIGN_MODE` is `typed`, but `TYPED_DATA_JSON` is unset. -/
def apiEnvCex : ApiEnv :=
  { ETH_RPC_URL := some "http://rpc.example"
    PRIVATE_KEY := some "0xdeadbeef"
    TARGET_API_URL := some "http://api.example"
    SIGN_MODE := some "typed"
    MESSAGE := none
    TYPED_DATA_JSON := none
    API_PAYLOAD_JSON := none }

/-- Counterexample for C8: a run missing the required `TYPED_DATA_JSON` input
fails with the config error only after issuing the RPC `getBlockNumber` query
and loading the private key into a wallet — network and key work precede the
failing configuration check. -/
theorem config_before_work_cex :
    apiEnvCex.TYPED_DATA_JSON = none ∧
    mainApi apiEnvCex =
      ([Ev.rpcGetBlockNumber, Ev.keyLoad],
       Except.error "Missing required env var: TYPED_DATA_JSON") :=
  ⟨rfl, rfl⟩

/-- C8 (amended): the startup-checked inputs (`ETH_RPC_URL`, `PRIVATE_KEY`,
`TARGET_API_URL` in the API script; the role's private key and counterparty
address in the link coordinator) abort with a config error before any
cryptographic or network event, but the typed-mode input `TYPED_DATA_JSON` is
only checked after the RPC query and the wallet key load. -/
theorem config_before_work :
    (∀ (env : ApiEnv) (e : String),
      getenvStrict env.ETH_RPC_URL "ETH_RPC_URL" = Except.error e →
      mainApi env = ([], Except.error e)) ∧
    (∀ (env : ApiEnv) (s e : String),
      getenvStrict env.ETH_RPC_URL "ETH_RPC_URL" = Except.ok s →
      getenvStrict env.PRIVATE_KEY "PRIVATE_KEY" = Except.error e →
      mainApi env = ([], Except.error e)) ∧
    (∀ (env : ApiEnv) (s₁ s₂ e : String),
      getenvStrict env.ETH_RPC_URL "ETH_RPC_URL" = Except.ok s₁ →
      getenvStrict env.PRIVATE_KEY "PRIVATE_KEY" = Except.ok s₂ →
      getenvStrict env.TARGET_API_URL "TARGET_API_URL" = Except.error e →
      mainApi env = ([], Except.error e)) ∧
    (∀ (env : ApiEnv) (s₁ s₂ s₃ e : String),
      getenvStrict env.ETH_RPC_URL "ETH_RPC_URL" = Except.ok s₁ →
      getenvStrict env.PRIVATE_KEY "PRIVATE_KEY" = Except.ok s₂ →
      getenvStrict env.TARGET_API_URL "TARGET_API_URL" = Except.ok s₃ →
      signModeOf env.SIGN_MODE = "typed" →
      getenvStrict env.TYPED_DATA_JSON "TYPED_DATA_JSON" = Except.error e →
      mainApi env = ([Ev.rpcGetBlockNumber, Ev.keyLoad], Except.error e)) ∧
    (∀ (ρ : Type) (W : World ρ) (env : Env) (now : Nat) (e : String),
      env.IS_FINALIZE = some "true" →
      getenvStrict env.STAKING_PRIVATE_KEY "STAKING_PRIVATE_KEY" = Except.error e →
      mainLink W env now = ([], Except.error e)) ∧
    (∀ (ρ : Type) (W : World ρ) (env : Env) (now : Nat) (e : String),
      env.IS_FINALIZE ≠ some "true" →
      getenvStrict env.TRADING_PRIVATE_KEY "TRADING_PRIVATE_KEY" = Except.error e →
      mainLink W env now = ([], Except.error e)) ∧
    (∀ (ρ : Type) (W : World ρ) (env : Env) (now : Nat) (s e : String),
      env.IS_FINALIZE = some "true" →
      getenvStrict env.STAKING_PRIVATE_KEY "STAKING_PRIVATE_KEY" = Except.ok s →
      getenvStrict env.STAKING_USER_ADDRESS "STAKING_USER_ADDRESS" = Except.error e →
      mainLink W env now = ([], Except.error e)) ∧
    (∀ (ρ : Type) (W : World ρ) (env : Env) (now : Nat) (s e : String),
      env.IS_FINALIZE ≠ some "true" →
      getenvStrict env.TRADING_PRIVATE_KEY "TRADING_PRIVATE_KEY" = Except.ok s →
      getenvStrict env.TRADING_USER_ADDRESS "TRADING_USER_ADDRESS" = Except.error e →
      mainLink W env now = ([], Except.error e)) := by
  refine ⟨?_, ?_, ?_, ?_, ?_, ?_, ?_, ?_⟩
  · intro env e h1
    simp [mainApi, h1]
  · intro env s e h1 h2
    simp [mainApi, h1, h2]
  · intro env s₁ s₂ e h1 h2 h3
    simp [mainApi, h1, h2, h3]
  · intro env s₁ s₂ s₃ e h1 h2 h3 hmode herr
    simp only [mainApi, h1, h2, h3, hmode, herr]
    simp
  · intro ρ W env now e hrole hkey
    simp only [mainLink]
    rw [if_pos hrole]
    simp [hkey]
  · intro ρ W env now e hrole hkey
    simp only [mainLink]
    rw [if_neg hrole]
    simp [hkey]
  · intro ρ W env now s e hrole hkey haddr
    simp only [mainLink]
    rw [if_pos hrole]
    simp [hkey, haddr]
  · intro ρ W env now s e hrole hkey haddr
    simp only [mainLink]
    rw [if_neg hrole]
    simp [hkey, haddr]

/-- Environment with the startup variable `ETH_RPC_URL` unset. -/
def apiEnvNoRpc : ApiEnv :=
  { ETH_RPC_URL := none
    PRIVATE_KEY := some "0xdeadbeef"
    TARGET_API_URL := some "http://api.example"
    SIGN_MODE := none
    MESSAGE := none
    TYPED_DATA_JSON := none
    API_PAYLOAD_JSON := none }

/-- Witness for C8 (amended): missing `ETH_RPC_URL` aborts with an empty event
trace — no RPC query, key load, signing or POST happened. -/
theorem config_before_work_witness :
    mainApi apiEnvNoRpc = ([], Except.error "Missing required env var: ETH_RPC_URL") :=
  config_before_work.1 apiEnvNoRpc "Missing required env var: ETH_RPC_URL" rfl

/-! ## C9 -/

/-- Test for an HTTP POST event. -/
def isPostEv : Ev → Bool
  | Ev.httpPost _ _ => true
  | _ => false

theorem mainLink_trace (ρ : Type) (W : World ρ) (env : Env) (now : Nat) :
    (mainLink W env now).1 = [] ∨ (mainLink W env now).1 = [Ev.keyLoad, Ev.signOp] ∨
    (mainLink W env now).1 =
      [Ev.keyLoad, Ev.signOp,
       Ev.httpPost (submitUrl (env.HYPERLIQUID_TESTNET != some "false")) axiosTimeoutMs] := by
  simp only [mainLink, signAndSubmitLink']
  split
  · split
    · simp
    · split
      · simp
      · split <;> simp
  · split
    · simp
    · split
      · simp
      · split <;> simp

theorem mainStaking_trace (ρ : Type) (W : World ρ) (env : Env) (now : Nat) :
    (mainStaking W env now).1 = [] ∨ (mainStaking W env now).1 = [Ev.keyLoad, Ev.signOp] ∨
    (mainStaking W env now).1 =
      [Ev.keyLoad, Ev.signOp,
       Ev.httpPost (submitUrl (env.HYPERLIQUID_TESTNET != some "false")) axiosTimeoutMs] := by
  simp only [mainStaking]
  split
  · simp
  · split
    · simp
    · split <;> simp

theorem mainApi_trace (env : ApiEnv) :
    (mainApi env).1 = [] ∨ (mainApi env).1 = [Ev.rpcGetBlockNumber, Ev.keyLoad] ∨
    ∃ u, (mainApi env).1 =
      [Ev.rpcGetBlockNumber, Ev.keyLoad, Ev.signOp, Ev.httpPost u axiosTimeoutMs] := by
  simp only [mainApi]
  split
  · simp
  · split
    · simp
    · split
      · simp
      · rename_i x3 u3 heq3
        split
        · exact Or.inr (Or.inr ⟨u3, by simp⟩)
        · split
          · split
            · simp
            · exact Or.inr (Or.inr ⟨u3, by simp⟩)
          · simp

/-- C9: every HTTP submission in any run of the three entry points carries the
fixed 30000 ms axios timeout, and no run issues more than one HTTP POST — no
code path re-issues a failed network request. -/
theorem http_timeout_and_no_retry :
    (∀ (ρ : Type) (W : World ρ) (env : Env) (now : Nat) (u : String) (ms : Nat),
      Ev.httpPost u ms ∈ (mainLink W env now).1 → ms = axiosTimeoutMs) ∧
    (∀ (ρ : Type) (W : World ρ) (env : Env) (now : Nat),
      ((mainLink W env now).1.filter isPostEv).length ≤ 1) ∧
    (∀ (env : ApiEnv) (u : String) (ms : Nat),
      Ev.httpPost u ms ∈ (mainApi env).1 → ms = axiosTimeoutMs) ∧
    (∀ env : ApiEnv, ((mainApi env).1.filter isPostEv).length ≤ 1) ∧
    (∀ (ρ : Type) (W : World ρ) (env : Env) (now : Nat) (u : String) (ms : Nat),
      Ev.httpPost u ms ∈ (mainStaking W env now).1 → ms = axiosTimeoutMs) ∧
    (∀ (ρ : Type) (W : World ρ) (env : Env) (now : Nat),
      ((mainStaking W env now).1.filter isPostEv).length ≤ 1) := by
  refine ⟨?_, ?_, ?_, ?_, ?_, ?_⟩
  · intro ρ W env now u ms hmem
    rcases mainLink_trace ρ W env now with htr | htr | htr <;> rw [htr] at hmem <;>
      simp_all
  · intro ρ W env now
    rcases mainLink_trace ρ W env now with htr | htr | htr <;> rw [htr] <;>
      simp [isPostEv]
  · intro env u ms hmem
    rcases mainApi_trace env with htr | htr | ⟨u', htr⟩ <;> rw [htr] at hmem <;>
      simp_all
  · intro env
    rcases mainApi_trace env with htr | htr | ⟨u', htr⟩ <;> rw [htr] <;>
      simp [isPostEv]
  · intro ρ W env now u ms hmem
    rcases mainStaking_trace ρ W env now with htr | htr | htr <;> rw [htr] at hmem <;>
      simp_all
  · intro ρ W env now
    rcases mainStaking_trace ρ W env now with htr | htr | htr <;> rw [htr] <;>
      simp [isPostEv]

/-- Witness for C9: in the concrete initiator run the one POST that occurs
carries the 30000 ms timeout. -/
theorem http_timeout_and_no_retry_witness : (30000 : Nat) = axiosTimeoutMs :=
  http_timeout_and_no_retry.1 String okWorld initEnv 1234 (submitUrl true) 30000 (by decide)

/-! ## C2 -/

/-- C2: ECDSA sign-then-recover round-trip.  For a key `d` and digest `z`,
signing with an invertible per-signature nonce `k` whose `r`-value is
invertible, and then recovering from `(z, r, s, v)` — given that the curve
point reconstruction from `(r, v)` returns the signing point — yields exactly
the address derived from `d`'s public key. -/
theorem ecdsa_sign_recover_roundtrip {n : ℕ} (xcoord : ZMod n → ZMod n)
    (vbit : ZMod n → Bool) (recoverPoint : ZMod n → Bool → Option (ZMod n))
    (addr : ZMod n → Nat) (d z k r s : ZMod n) (v : Bool)
    (hk : k * k⁻¹ = 1)
    (hsig : ecSign xcoord vbit d z k = some (r, s, v))
    (hr : r * r⁻¹ = 1)
    (hrec : recoverPoint r v = some k) :
    ecRecover recoverPoint addr z r s v = some (addr d) := by
  unfold ecSign at hsig
  by_cases h0 : xcoord (k * 1) = 0
  · rw [if_pos h0] at hsig
    simp at hsig
  · rw [if_neg h0] at hsig
    by_cases hs0 : k⁻¹ * (z + xcoord (k * 1) * d) = 0
    · rw [if_pos hs0] at hsig
      simp at hsig
    · rw [if_neg hs0] at hsig
      simp only [Option.some.injEq, Prod.mk.injEq] at hsig
      obtain ⟨hrr, hss, hvv⟩ := hsig
      subst hrr hss hvv
      simp only [ecRecover, hrec]
      have halg : -(z * (xcoord (k * 1))⁻¹) +
          k⁻¹ * (z + xcoord (k * 1) * d) * (xcoord (k * 1))⁻¹ * k = d := by
        linear_combination (z + xcoord (k * 1) * d) * (xcoord (k * 1))⁻¹ * hk + d * hr
      rw [halg]

/-- The inverse of 3 in the five-element group of the C2 witness. -/
theorem zmod5_inv_three : (3 : ZMod 5)⁻¹ = 2 := by
  have hmul : (3 : ZMod 5) * 2 = 1 := by decide
  haveI : Fact (Nat.Prime 5) := ⟨by norm_num⟩
  exact inv_eq_of_mul_eq_one_right hmul

/-- Witness for C2: in the order-5 group with identity x-coordinate, signing
digest 3 under key 2 with nonce 3 gives `(r, s, v) = (3, 3, false)`, and
recovery returns the address (here `ZMod.val`) of the public key of 2. -/
theorem ecdsa_roundtrip_witness :
    ecRecover (fun r _ => some (r : ZMod 5)) ZMod.val 3 3 3 false = some 2 := by
  have h3 : (3 : ZMod 5)⁻¹ = 2 := zmod5_inv_three
  have hk5 : (3 : ZMod 5) * (3 : ZMod 5)⁻¹ = 1 := by rw [h3]; decide
  have hsig5 : ecSign (n := 5) id (fun _ => false) 2 3 3 = some (3, 3, false) := by
    simp only [ecSign, h3]
    decide
  have happ := ecdsa_sign_recover_roundtrip (n := 5) id (fun _ => false) (fun r _ => some r)
    ZMod.val 2 3 3 3 3 false hk5 hsig5 hk5 rfl
  simpa using happ
